import Mathlib

/-!
Verification development for the squircle (superellipse) drawer.

The program is a single-file interactive tool: six draggable sliders drive the
parameters of a superellipse; one quadrant of the boundary is tessellated into a
vertex buffer, which is mirrored through a four-entry sign table, rotated and
translated by the renderer; a dirty flag caches the buffer across frames.

Modelling conventions:
* Machine floating point (`f32`/`f64`) is modelled by exact rationals `ℚ`.
  `f32::EPSILON` is the exact rational `2 ^ (-23)`.
* The transcendental operations the code calls (`sin`, `cos`, `powf`) and the
  constant `PI` are abstracted into a `TrigOps` record of rational functions,
  since the claims under verification are structural (buffer shape, boundary
  forcing, caching, mirroring) and hold for every interpretation of these
  operations.  The `f64`-to-`f32` casts in the generator are the identity in
  this exact model.
* `Rect.contains` follows the macroquad implementation: half-open on the
  right and bottom edges.
-/

namespace Squircle

/-- Exact value of `f32::EPSILON`, namely `2 ^ (-23)`. -/
def f32_epsilon : ℚ := 1 / 2 ^ 23

/-- Rust `x.clamp(lo, hi)`: `lo` if `x < lo`, else `hi` if `x > hi`, else `x`. -/
def rustClamp (x lo hi : ℚ) : ℚ :=
  if x < lo then lo else if x > hi then hi else x

/-- Rust `q as usize` for an exact rational standing in for an `f32`:
truncation toward zero, saturating at `0` for negative inputs. -/
def ratToUsize (q : ℚ) : ℕ :=
  ⌊q⌋.toNat

/-- macroquad `Rect { x, y, w, h }`. -/
structure Rect where
  x : ℚ
  y : ℚ
  w : ℚ
  h : ℚ
deriving DecidableEq, Repr

/-- macroquad `Rect::contains(point)`: `x ≤ px < x + w` and `y ≤ py < y + h`. -/
def Rect.contains (r : Rect) (px py : ℚ) : Bool :=
  px ≥ r.x && px < r.x + r.w && py < r.y + r.h && py ≥ r.y

/-- Per-frame external input: pointer position, pointer button state, and the
fill-toggle key edge. -/
structure FrameInput where
  mouseX : ℚ
  mouseY : ℚ
  mouseDown : Bool
  spacePressed : Bool
deriving DecidableEq, Repr

/-- The `Slider` struct: label, current value, range, bounding rectangle. -/
structure Slider where
  label : String
  value : ℚ
  min : ℚ
  max : ℚ
  rect : Rect
deriving DecidableEq, Repr

/-- `Slider::new`: the rectangle is always `200` wide and `20` tall. -/
def Slider.new (label : String) (value min max x y : ℚ) : Slider :=
  ⟨label, value, min, max, ⟨x, y, 200, 20⟩⟩

/-- The interaction region built inside `Slider::update`: the bounding
rectangle expanded by a `10`-pixel vertical margin on both sides. -/
def Slider.interactionArea (s : Slider) : Rect :=
  ⟨s.rect.x, s.rect.y - 10, s.rect.w, s.rect.h + 20⟩

/-- `Slider::update`.  When the pointer button is down and the pointer lies in
the interaction region, the value becomes
`clamp((mouse_x - rect.x) / rect.w, 0, 1) * (max - min) + min` and the call
reports whether the new value differs from the old by more than
`f32::EPSILON`; otherwise the slider is untouched and the call reports
`false`.  Returns the updated slider and the reported flag. -/
def Slider.update (s : Slider) (inp : FrameInput) : Slider × Bool :=
  if inp.mouseDown && (s.interactionArea).contains inp.mouseX inp.mouseY then
    let oldValue := s.value
    let ratio := (inp.mouseX - s.rect.x) / s.rect.w
    let clampedRatio := rustClamp ratio 0 1
    let value := clampedRatio * (s.max - s.min) + s.min
    ({ s with value := value }, decide (abs (value - oldValue) > f32_epsilon))
  else
    (s, false)

/-- The transcendental operations and the circle constant used by the program
(`sin`, `cos`, `powf`, `PI`/`FRAC_PI_2`), abstracted as exact rational
functions.  The claims under verification are structural and hold for every
interpretation of these fields. -/
structure TrigOps where
  sin : ℚ → ℚ
  cos : ℚ → ℚ
  powf : ℚ → ℚ → ℚ
  pi : ℚ

/-- The vertex-buffer regeneration body in `main`: push `(r_a, 0)`, then for
`i` in `1..steps` push the parametric point at `t = (π/2) * i / steps`, then
push `(0, r_b)`.  The interior points use
`x = r_a * cos(t)^(2/n)`, `y = r_b * sin(t)^(2/n)`. -/
def generate (ops : TrigOps) (r_a r_b n : ℚ) (steps : ℕ) : List (ℚ × ℚ) :=
  ((r_a, (0 : ℚ)) :: (List.range' 1 (steps - 1)).map (fun (i : ℕ) =>
    let t : ℚ := ops.pi / 2 * (i : ℚ) / (steps : ℚ)
    let sin_t := ops.sin t
    let cos_t := ops.cos t
    let exponent := 2 / n
    let x := r_a * ops.powf cos_t exponent
    let y := r_b * ops.powf sin_t exponent
    (x, y))) ++ [((0 : ℚ), r_b)]

/-- The `quadrants` sign table declared at the top of `main`. -/
def quadrants : List (ℚ × ℚ) := [(1, 1), (-1, 1), (-1, -1), (1, -1)]

/-- Sign mirroring of a buffer point by a sign-table entry `(sx, sy)`. -/
def applySigns (sq v : ℚ × ℚ) : ℚ × ℚ := (sq.1 * v.1, sq.2 * v.2)

/-- Rotation by the matrix with `m = (sin θ, cos θ)`:
`(x, y) ↦ (cos θ * x - sin θ * y, sin θ * x + cos θ * y)`. -/
def rotate (m p : ℚ × ℚ) : ℚ × ℚ :=
  (m.2 * p.1 - m.1 * p.2, m.1 * p.1 + m.2 * p.2)

/-- Translation by the screen centre. -/
def translate (c p : ℚ × ℚ) : ℚ × ℚ := (p.1 + c.1, p.2 + c.2)

/-- The fused rotate-and-offset expression used inside `render_quadrants`. -/
def rotateTranslate (c m p : ℚ × ℚ) : ℚ × ℚ :=
  (m.2 * p.1 - m.1 * p.2 + c.1, m.1 * p.1 + m.2 * p.2 + c.2)

/-- The inner `for i in 1..=steps` loop of `render_quadrants`, threading
`p_prev` and collecting the pairs passed to the draw callback; `xf` is the
per-point transform (mirror, rotate, offset).  An out-of-bounds buffer index
models the Rust panic as `none`. -/
def quadrantLoop (xf : ℚ × ℚ → ℚ × ℚ) (vb : List (ℚ × ℚ)) (pPrev : ℚ × ℚ) :
    List ℕ → Option (List ((ℚ × ℚ) × (ℚ × ℚ)))
  | [] => some []
  | i :: rest =>
    match vb[i]? with
    | none => none
    | some v =>
      let pCurr := xf v
      match quadrantLoop xf vb pCurr rest with
      | none => none
      | some segs => some ((pPrev, pCurr) :: segs)

/-- One iteration of the outer quadrant loop of `render_quadrants`: read
`vertex_buffer[0]`, transform it into the initial `p_prev`, then run the
inner loop over `i = 1, ..., steps`. -/
def quadrantSegs (c : ℚ × ℚ) (steps : ℕ) (vb : List (ℚ × ℚ)) (sq m : ℚ × ℚ) :
    Option (List ((ℚ × ℚ) × (ℚ × ℚ))) :=
  match vb[0]? with
  | none => none
  | some v0 =>
    quadrantLoop (fun v => rotateTranslate c m (applySigns sq v)) vb
      (rotateTranslate c m (applySigns sq v0)) (List.range' 1 steps)

/-- `render_quadrants`, modelled as the ordered list of `(p_prev, p_curr)`
pairs handed to the draw callback; `none` models an out-of-bounds panic. -/
def render_quadrants (c : ℚ × ℚ) (steps : ℕ) (vb : List (ℚ × ℚ)) :
    List (ℚ × ℚ) → ℚ × ℚ → Option (List ((ℚ × ℚ) × (ℚ × ℚ)))
  | [], _ => some []
  | sq :: rest, m =>
    match quadrantSegs c steps vb sq m, render_quadrants c steps vb rest m with
    | some segs, some tl => some (segs ++ tl)
    | _, _ => none

/-- The mutable state of `main` that survives across frames. -/
structure AppState where
  r_a_slider : Slider
  r_b_slider : Slider
  n_slider : Slider
  thickness_slider : Slider
  steps_slider : Slider
  rotation_slider : Slider
  rotation_matrix_trig_values : ℚ × ℚ
  vertices_need_recalculation : Bool
  vertex_buffer : List (ℚ × ℚ)
  steps : ℕ
  fill : Bool
deriving DecidableEq, Repr

/-- The state of `main` just before the first loop iteration; `screenW`
stands for the startup value of `screen_width()`. -/
def initState (screenW : ℚ) : AppState :=
  { r_a_slider := Slider.new "Semi-major axis (r_a)" (screenW / 4) 10 screenW 20 40
    r_b_slider := Slider.new "Semi-minor axis (r_b)" (screenW / 4) 10 screenW 20 80
    n_slider := Slider.new "Roundedness (n)" 4 (1 / 10) 12 20 120
    thickness_slider := Slider.new "Thickness" 2 (1 / 10) 40 20 160
    steps_slider := Slider.new "Steps" 25 1 50 20 200
    rotation_slider := Slider.new "Rotation" 0 0 180 20 240
    rotation_matrix_trig_values := (0, 1)
    vertices_need_recalculation := true
    vertex_buffer := []
    steps := 25
    fill := false }

/-- Which slider `update` calls actually ran this frame, and what each one
reported.  A geometry slider skipped by `||` short-circuiting has both its
fields `false`. -/
structure InputTrace where
  rAInvoked : Bool
  rAChanged : Bool
  rBInvoked : Bool
  rBChanged : Bool
  nInvoked : Bool
  nChanged : Bool
  stepsInvoked : Bool
  stepsChanged : Bool
  thicknessInvoked : Bool
  thicknessChanged : Bool
  rotationInvoked : Bool
  rotationChanged : Bool
deriving DecidableEq, Repr

/-- The input section of the frame loop: the short-circuited `||` chain over
the four geometry sliders (an operand's `update` runs only while every
operand to its left was `false`), the unconditional thickness and rotation
updates, the rotation-matrix refresh, and the fill toggle. -/
def inputPhase (ops : TrigOps) (st : AppState) (inp : FrameInput) :
    AppState × InputTrace :=
  let d0 := st.vertices_need_recalculation
  let stepA := if d0 then (st.r_a_slider, false) else st.r_a_slider.update inp
  let d1 := d0 || stepA.2
  let stepB := if d1 then (st.r_b_slider, false) else st.r_b_slider.update inp
  let d2 := d1 || stepB.2
  let stepN := if d2 then (st.n_slider, false) else st.n_slider.update inp
  let d3 := d2 || stepN.2
  let stepS := if d3 then (st.steps_slider, false) else st.steps_slider.update inp
  let d4 := d3 || stepS.2
  let stepT := st.thickness_slider.update inp
  let stepR := st.rotation_slider.update inp
  let rot :=
    if stepR.2 then
      let rotation_degrees := stepR.1.value
      let rotation_radians := rotation_degrees * ops.pi / 180
      (ops.sin rotation_radians, ops.cos rotation_radians)
    else st.rotation_matrix_trig_values
  let fill := if inp.spacePressed then !st.fill else st.fill
  ({ st with
      r_a_slider := stepA.1
      r_b_slider := stepB.1
      n_slider := stepN.1
      steps_slider := stepS.1
      thickness_slider := stepT.1
      rotation_slider := stepR.1
      rotation_matrix_trig_values := rot
      vertices_need_recalculation := d4
      fill := fill },
   { rAInvoked := !d0, rAChanged := stepA.2
     rBInvoked := !d1, rBChanged := stepB.2
     nInvoked := !d2, nChanged := stepN.2
     stepsInvoked := !d3, stepsChanged := stepS.2
     thicknessInvoked := true, thicknessChanged := stepT.2
     rotationInvoked := true, rotationChanged := stepR.2 })

/-- The `if vertices_need_recalculation { ... }` block: cache the step count,
rebuild the quarter vertex buffer from the current slider values and clear
the flag.  Also returns how many buffer regenerations ran (`0` or `1`). -/
def regenPhase (ops : TrigOps) (st : AppState) : AppState × ℕ :=
  if st.vertices_need_recalculation then
    let r_a := st.r_a_slider.value
    let r_b := st.r_b_slider.value
    let n := st.n_slider.value
    let steps := ratToUsize st.steps_slider.value
    ({ st with
        steps := steps
        vertex_buffer := generate ops r_a r_b n steps
        vertices_need_recalculation := false }, 1)
  else (st, 0)

/-- One full frame iteration up to the draw calls: input phase, then the
conditional regeneration.  Rendering reads `steps` and `vertex_buffer` of the
resulting state and mutates nothing, so the next frame starts here. -/
def frameStep (ops : TrigOps) (st : AppState) (inp : FrameInput) : AppState :=
  (regenPhase ops (inputPhase ops st inp).1).1

/-- Iterated frames of the main loop. -/
def runFrames (ops : TrigOps) (st : AppState) : List FrameInput → AppState
  | [] => st
  | inp :: rest => runFrames ops (frameStep ops st inp) rest

/-- A fixed computable interpretation of the transcendental operations, used
to instantiate concrete scenarios. -/
def dummyOps : TrigOps :=
  { sin := fun q => q, cos := fun q => q, powf := fun x _ => x, pi := 355 / 113 }

/-- Concrete semi-major slider as built in `main` with `screen_width() = 810`,
mid-drag. -/
def c7Slider : Slider := Slider.new "Semi-major axis (r_a)" (405 / 2) 10 810 20 40

/-- Pointer halfway across the semi-major track, button held. -/
def c7Input : FrameInput := ⟨120, 45, true, false⟩

/-- Concrete rotation slider as built in `main`. -/
def c8Slider : Slider := Slider.new "Rotation" 0 0 180 20 240

/-- Pointer input with the button not held. -/
def c8Input : FrameInput := ⟨120, 45, false, false⟩

/-- Semi-major slider sitting exactly at its minimum. -/
def c10Slider : Slider := Slider.new "Semi-major axis (r_a)" 10 10 810 20 40

/-- Pointer a sub-epsilon distance into the track, button held. -/
def c10Input : FrameInput := ⟨20 + 1 / 2 ^ 25, 45, true, false⟩

/-- Pointer dragging the semi-major slider, button held. -/
def c3Input : FrameInput := ⟨120, 45, true, false⟩

/-- Frame input with the pointer idle at the origin. -/
def benignInput : FrameInput := ⟨0, 0, false, false⟩

/-- Pointer halfway across the semi-major track, button held. -/
def c4DragInput : FrameInput := ⟨120, 45, true, false⟩

/-- Pointer a sub-epsilon distance to the right of halfway, button held. -/
def c4EpsInput : FrameInput := ⟨120 + 1 / 2 ^ 25, 45, true, false⟩

/-- State after the first frame (idle pointer) from startup with
`screen_width() = 810`. -/
def c4S1 : AppState := frameStep dummyOps (initState 810) benignInput

/-- State after a second frame dragging the semi-major slider to `410`. -/
def c4S2 : AppState := frameStep dummyOps c4S1 c4DragInput

/-- State after a third frame nudging the pointer by `2 ^ (-25)` pixels. -/
def c4S3 : AppState := frameStep dummyOps c4S2 c4EpsInput

/-- Expected state after frame 1. -/
def c4T1 : AppState :=
  { r_a_slider := ⟨"Semi-major axis (r_a)", 405 / 2, 10, 810, ⟨20, 40, 200, 20⟩⟩
    r_b_slider := ⟨"Semi-minor axis (r_b)", 405 / 2, 10, 810, ⟨20, 80, 200, 20⟩⟩
    n_slider := ⟨"Roundedness (n)", 4, 1 / 10, 12, ⟨20, 120, 200, 20⟩⟩
    thickness_slider := ⟨"Thickness", 2, 1 / 10, 40, ⟨20, 160, 200, 20⟩⟩
    steps_slider := ⟨"Steps", 25, 1, 50, ⟨20, 200, 200, 20⟩⟩
    rotation_slider := ⟨"Rotation", 0, 0, 180, ⟨20, 240, 200, 20⟩⟩
    rotation_matrix_trig_values := (0, 1)
    vertices_need_recalculation := false
    vertex_buffer := generate dummyOps (405 / 2) (405 / 2) 4 25
    steps := 25
    fill := false }

/-- Expected state after frame 2. -/
def c4T2 : AppState :=
  { r_a_slider := ⟨"Semi-major axis (r_a)", 410, 10, 810, ⟨20, 40, 200, 20⟩⟩
    r_b_slider := ⟨"Semi-minor axis (r_b)", 405 / 2, 10, 810, ⟨20, 80, 200, 20⟩⟩
    n_slider := ⟨"Roundedness (n)", 4, 1 / 10, 12, ⟨20, 120, 200, 20⟩⟩
    thickness_slider := ⟨"Thickness", 2, 1 / 10, 40, ⟨20, 160, 200, 20⟩⟩
    steps_slider := ⟨"Steps", 25, 1, 50, ⟨20, 200, 200, 20⟩⟩
    rotation_slider := ⟨"Rotation", 0, 0, 180, ⟨20, 240, 200, 20⟩⟩
    rotation_matrix_trig_values := (0, 1)
    vertices_need_recalculation := false
    vertex_buffer := generate dummyOps 410 (405 / 2) 4 25
    steps := 25
    fill := false }

/-- Expected state after frame 3: the semi-major value drifted by
`2 ^ (-23)` but the buffer was not rebuilt. -/
def c4T3 : AppState :=
  { r_a_slider := ⟨"Semi-major axis (r_a)", 410 + 1 / 8388608, 10, 810, ⟨20, 40, 200, 20⟩⟩
    r_b_slider := ⟨"Semi-minor axis (r_b)", 405 / 2, 10, 810, ⟨20, 80, 200, 20⟩⟩
    n_slider := ⟨"Roundedness (n)", 4, 1 / 10, 12, ⟨20, 120, 200, 20⟩⟩
    thickness_slider := ⟨"Thickness", 2, 1 / 10, 40, ⟨20, 160, 200, 20⟩⟩
    steps_slider := ⟨"Steps", 25, 1, 50, ⟨20, 200, 200, 20⟩⟩
    rotation_slider := ⟨"Rotation", 0, 0, 180, ⟨20, 240, 200, 20⟩⟩
    rotation_matrix_trig_values := (0, 1)
    vertices_need_recalculation := false
    vertex_buffer := generate dummyOps 410 (405 / 2) 4 25
    steps := 25
    fill := false }

/-- Loop invariant for C9: the steps slider keeps its construction range
`[1, 50]`, its value stays inside it, and whenever the dirty flag is clear
the cached step count and the buffer length agree. -/
def StepsInv (st : AppState) : Prop :=
  st.steps_slider.min = 1 ∧ st.steps_slider.max = 50 ∧
  1 ≤ st.steps_slider.value ∧ st.steps_slider.value ≤ 50 ∧
  (st.vertices_need_recalculation = false →
    st.steps + 1 = st.vertex_buffer.length)

/-! ## Helper lemmas -/

theorem rustClamp_nonneg {x : ℚ} : 0 ≤ rustClamp x 0 1 := by
  unfold rustClamp
  split_ifs <;> linarith

theorem rustClamp_le_one {x : ℚ} : rustClamp x 0 1 ≤ 1 := by
  unfold rustClamp
  split_ifs <;> linarith

theorem rustClamp_of_nonneg_of_le_one {x : ℚ} (h0 : 0 ≤ x) (h1 : x ≤ 1) :
    rustClamp x 0 1 = x := by
  unfold rustClamp
  split_ifs <;> linarith

theorem slider_update_skip (s : Slider) (inp : FrameInput)
    (h : inp.mouseDown = false ∨
      (s.interactionArea).contains inp.mouseX inp.mouseY = false) :
    s.update inp = (s, false) := by
  unfold Slider.update
  rcases h with h | h <;> simp [h]

theorem slider_update_of_active (s : Slider) (inp : FrameInput)
    (hdown : inp.mouseDown = true)
    (hin : (s.interactionArea).contains inp.mouseX inp.mouseY = true) :
    s.update inp =
      ({ s with value := rustClamp ((inp.mouseX - s.rect.x) / s.rect.w) 0 1 *
          (s.max - s.min) + s.min },
        decide (abs (rustClamp ((inp.mouseX - s.rect.x) / s.rect.w) 0 1 *
          (s.max - s.min) + s.min - s.value) > f32_epsilon)) := by
  unfold Slider.update
  rw [hdown, hin]
  rfl

/-- C7: while the pointer button is held and the pointer is inside the
interaction region, `Slider::update` sets
`value = clamp((mouse_x - rect.x)/rect.w, 0, 1) * (max - min) + min`; hence a
pointer left of the track yields `min`, right of the track yields `max`, a
fraction `p` across yields `min + p * (max - min)`, and the new value lies in
`[min, max]` whenever `min < max`. -/
theorem slider_update_drag (s : Slider) (inp : FrameInput) (p : ℚ)
    (hdown : inp.mouseDown = true)
    (hin : (s.interactionArea).contains inp.mouseX inp.mouseY = true)
    (hw : 0 < s.rect.w) (hrange : s.min < s.max)
    (hp0 : 0 ≤ p) (hp1 : p ≤ 1) :
    ((s.update inp).1.value =
        rustClamp ((inp.mouseX - s.rect.x) / s.rect.w) 0 1 * (s.max - s.min) + s.min) ∧
    (inp.mouseX < s.rect.x → (s.update inp).1.value = s.min) ∧
    (s.rect.x + s.rect.w < inp.mouseX → (s.update inp).1.value = s.max) ∧
    (inp.mouseX = s.rect.x + p * s.rect.w →
        (s.update inp).1.value = s.min + p * (s.max - s.min)) ∧
    s.min ≤ (s.update inp).1.value ∧ (s.update inp).1.value ≤ s.max := by
  have hval : (s.update inp).1.value =
      rustClamp ((inp.mouseX - s.rect.x) / s.rect.w) 0 1 * (s.max - s.min) + s.min := by
    rw [slider_update_of_active s inp hdown hin]
  refine ⟨hval, ?_, ?_, ?_, ?_, ?_⟩
  · intro hx
    have hneg : (inp.mouseX - s.rect.x) / s.rect.w < 0 :=
      div_neg_of_neg_of_pos (by linarith) hw
    rw [hval]
    unfold rustClamp
    rw [if_pos hneg]
    ring
  · intro hx
    have hgt : (1 : ℚ) < (inp.mouseX - s.rect.x) / s.rect.w := by
      rw [lt_div_iff hw]
      linarith
    rw [hval]
    unfold rustClamp
    rw [if_neg (by linarith), if_pos hgt]
    ring
  · intro hx
    have hr : (inp.mouseX - s.rect.x) / s.rect.w = p := by
      rw [hx]
      field_simp
    rw [hval, hr, rustClamp_of_nonneg_of_le_one hp0 hp1]
    ring
  · rw [hval]
    nlinarith [rustClamp_nonneg (x := (inp.mouseX - s.rect.x) / s.rect.w),
      rustClamp_le_one (x := (inp.mouseX - s.rect.x) / s.rect.w)]
  · rw [hval]
    nlinarith [rustClamp_nonneg (x := (inp.mouseX - s.rect.x) / s.rect.w),
      rustClamp_le_one (x := (inp.mouseX - s.rect.x) / s.rect.w)]

/-- Witness for C7: at the slider built by `main` with the pointer halfway
across the track, the updated value is the midpoint of the range. -/
theorem slider_update_drag_witness :
    c7Input.mouseDown = true ∧ 0 < c7Slider.rect.w ∧ c7Slider.min < c7Slider.max ∧
    (c7Slider.update c7Input).1.value =
      c7Slider.min + (1 / 2) * (c7Slider.max - c7Slider.min) :=
  ⟨rfl, by norm_num [c7Slider, Slider.new], by norm_num [c7Slider, Slider.new],
    (slider_update_drag c7Slider c7Input (1 / 2) rfl
      (by norm_num [c7Slider, c7Input, Slider.new, Slider.interactionArea, Rect.contains])
      (by norm_num [c7Slider, Slider.new]) (by norm_num [c7Slider, Slider.new])
      (by norm_num) (by norm_num)).2.2.2.1
      (by norm_num [c7Slider, c7Input, Slider.new])⟩

/-- C8: when the pointer button is up, or the pointer is outside the
interaction region (the rectangle expanded vertically by `10` on both sides),
`Slider::update` leaves the whole slider record (label, value, min, max,
rect) unchanged and returns `false`. -/
theorem slider_update_inactive (s : Slider) (inp : FrameInput)
    (h : inp.mouseDown = false ∨
      (s.interactionArea).contains inp.mouseX inp.mouseY = false) :
    s.update inp = (s, false) :=
  slider_update_skip s inp h

/-- Witness for C8: the rotation slider with the button up is untouched. -/
theorem slider_update_inactive_witness :
    c8Input.mouseDown = false ∧ c8Slider.update c8Input = (c8Slider, false) :=
  ⟨rfl, slider_update_inactive c8Slider c8Input (Or.inl rfl)⟩

/-- C10: `Slider::update` assigns the new value before the epsilon test, so a
drag can change the stored value (here by exactly `f32::EPSILON`) while the
call still returns `false`. -/
theorem slider_update_silent_change :
    ((c10Slider.update c10Input).2 = false) ∧
    (c10Slider.update c10Input).1.value ≠ c10Slider.value ∧
    abs ((c10Slider.update c10Input).1.value - c10Slider.value) ≤ f32_epsilon := by
  have hin : (c10Slider.interactionArea).contains c10Input.mouseX c10Input.mouseY = true := by
    norm_num [c10Slider, c10Input, Slider.new, Slider.interactionArea, Rect.contains]
  have h := slider_update_of_active c10Slider c10Input rfl hin
  have hexpr : rustClamp ((c10Input.mouseX - c10Slider.rect.x) / c10Slider.rect.w) 0 1 *
      (c10Slider.max - c10Slider.min) + c10Slider.min = 10 + 1 / 8388608 := by
    norm_num [c10Slider, c10Input, Slider.new, rustClamp]
  have hold : c10Slider.value = 10 := rfl
  have habs : abs ((10 + 1 / 8388608 : ℚ) - 10) = 1 / 8388608 := by
    rw [show ((10 + 1 / 8388608 : ℚ) - 10) = 1 / 8388608 by ring]
    exact abs_of_nonneg (by norm_num)
  refine ⟨?_, ?_, ?_⟩
  · rw [h]
    show decide _ = false
    rw [decide_eq_false_iff_not, not_lt, hexpr, hold, habs]
    norm_num [f32_epsilon]
  · rw [h]
    show rustClamp ((c10Input.mouseX - c10Slider.rect.x) / c10Slider.rect.w) 0 1 *
        (c10Slider.max - c10Slider.min) + c10Slider.min ≠ c10Slider.value
    rw [hexpr, hold]
    norm_num
  · rw [h]
    show abs (rustClamp ((c10Input.mouseX - c10Slider.rect.x) / c10Slider.rect.w) 0 1 *
        (c10Slider.max - c10Slider.min) + c10Slider.min - c10Slider.value) ≤ f32_epsilon
    rw [hexpr, hold, habs]
    norm_num [f32_epsilon]

/-- C5: mapping the four sign-table entries over any quarter-buffer point
`(x, y)` yields exactly `(x, y)`, `(-x, y)`, `(-x, -y)`, `(x, -y)`. -/
theorem quadrants_mirror (p : ℚ × ℚ) :
    quadrants.map (fun sq => applySigns sq p) =
      [(p.1, p.2), (-p.1, p.2), (-p.1, -p.2), (p.1, -p.2)] := by
  simp [quadrants, applySigns]

/-! ## C1: shape of the generated quarter buffer -/

theorem generate_length (ops : TrigOps) (a b n : ℚ) (s : ℕ) (hs : 1 ≤ s) :
    (generate ops a b n s).length = s + 1 := by
  simp [generate]
  omega

theorem generate_head (ops : TrigOps) (a b n : ℚ) (s : ℕ) :
    (generate ops a b n s)[0]? = some (a, 0) := by
  simp [generate]

theorem generate_last (ops : TrigOps) (a b n : ℚ) (s : ℕ) (hs : 1 ≤ s) :
    (generate ops a b n s)[s]? = some (0, b) := by
  obtain ⟨k, rfl⟩ : ∃ k, s = k + 1 := ⟨s - 1, by omega⟩
  unfold generate
  rw [List.cons_append, List.getElem?_cons_succ,
    List.getElem?_append_right (by simp), List.length_map, List.length_range']
  simp

theorem generate_interior (ops : TrigOps) (a b n : ℚ) (s i : ℕ)
    (h1 : 1 ≤ i) (h2 : i ≤ s - 1) :
    (generate ops a b n s)[i]? =
      some (a * ops.powf (ops.cos (ops.pi / 2 * (i : ℚ) / (s : ℚ))) (2 / n),
            b * ops.powf (ops.sin (ops.pi / 2 * (i : ℚ) / (s : ℚ))) (2 / n)) := by
  obtain ⟨k, rfl⟩ : ∃ k, i = k + 1 := ⟨i - 1, by omega⟩
  unfold generate
  rw [List.cons_append, List.getElem?_cons_succ,
    List.getElem?_append_left (by simp; omega), List.getElem?_map,
    List.getElem?_range' _ _ (by omega : k < s - 1)]
  simp only [Option.map_some']
  push_cast
  ring_nf

/-- C1: for `n > 0` and `s ≥ 1` the generated quarter buffer has `s + 1`
points, point `0` is exactly `(a, 0)`, point `s` is exactly `(0, b)`, and
every interior point `i` equals
`(a * cos(t_i)^(2/n), b * sin(t_i)^(2/n))` with `t_i = (π/2) * i / s`. -/
theorem generate_spec (ops : TrigOps) (a b n : ℚ) (s : ℕ)
    (hn : 0 < n) (hs : 1 ≤ s) :
    (generate ops a b n s).length = s + 1 ∧
    (generate ops a b n s)[0]? = some (a, 0) ∧
    (generate ops a b n s)[s]? = some (0, b) ∧
    ∀ i : ℕ, 1 ≤ i → i ≤ s - 1 →
      (generate ops a b n s)[i]? =
        some (a * ops.powf (ops.cos (ops.pi / 2 * (i : ℚ) / (s : ℚ))) (2 / n),
              b * ops.powf (ops.sin (ops.pi / 2 * (i : ℚ) / (s : ℚ))) (2 / n)) :=
  ⟨generate_length ops a b n s hs, generate_head ops a b n s,
    generate_last ops a b n s hs,
    fun i h1 h2 => generate_interior ops a b n s i h1 h2⟩

/-- Witness for C1 at `a = 2`, `b = 3`, `n = 1`, `s = 2`. -/
theorem generate_spec_witness :
    (0 : ℚ) < 1 ∧ (1 : ℕ) ≤ 2 ∧
    (generate dummyOps 2 3 1 2).length = 2 + 1 ∧
    (generate dummyOps 2 3 1 2)[0]? = some (2, 0) ∧
    (generate dummyOps 2 3 1 2)[2]? = some (0, 3) :=
  have h := generate_spec dummyOps 2 3 1 2 (by norm_num) (by norm_num)
  ⟨by norm_num, by norm_num, h.1, h.2.1, h.2.2.1⟩

/-! ## C2: regeneration is driven exactly by the dirty flag chain -/

theorem inputPhase_dirty (ops : TrigOps) (st : AppState) (inp : FrameInput) :
    (inputPhase ops st inp).1.vertices_need_recalculation =
      (st.vertices_need_recalculation || (inputPhase ops st inp).2.rAChanged
        || (inputPhase ops st inp).2.rBChanged || (inputPhase ops st inp).2.nChanged
        || (inputPhase ops st inp).2.stepsChanged) := rfl

/-- C2: the number of buffer regenerations a frame performs is `1` when the
dirty flag was already set or one of the four geometry sliders reported a
change, and `0` otherwise; in particular the thickness and rotation sliders
never cause a regeneration, and a reported geometry change causes exactly
one. -/
theorem regen_count_eq (ops : TrigOps) (st : AppState) (inp : FrameInput) :
    (regenPhase ops (inputPhase ops st inp).1).2 =
      if st.vertices_need_recalculation || (inputPhase ops st inp).2.rAChanged
          || (inputPhase ops st inp).2.rBChanged || (inputPhase ops st inp).2.nChanged
          || (inputPhase ops st inp).2.stepsChanged
      then 1 else 0 := by
  unfold regenPhase
  rw [← inputPhase_dirty ops st inp]
  cases h : (inputPhase ops st inp).1.vertices_need_recalculation <;> simp [h]

/-! ## C3: which sliders consume input each frame -/

/-- Counterexample to C3: on a frame whose dirty flag is already set (here
the first frame), the `||` chain short-circuits and the semi-major slider's
`update` never runs, although the pointer is dragging it. -/
theorem not_every_slider_consumes_input :
    (inputPhase dummyOps (initState 810) c3Input).2.rAInvoked = false := rfl

/-- C3 amended: the thickness and rotation sliders consume input every frame;
a geometry slider consumes input iff the dirty flag was clear at the start of
the frame and every earlier geometry slider in the chain reported no
change. -/
theorem slider_update_invocation (ops : TrigOps) (st : AppState) (inp : FrameInput) :
    ((inputPhase ops st inp).2.thicknessInvoked = true) ∧
    ((inputPhase ops st inp).2.rotationInvoked = true) ∧
    ((inputPhase ops st inp).2.rAInvoked = !st.vertices_need_recalculation) ∧
    ((inputPhase ops st inp).2.rBInvoked =
      (!st.vertices_need_recalculation && !(inputPhase ops st inp).2.rAChanged)) ∧
    ((inputPhase ops st inp).2.nInvoked =
      (!st.vertices_need_recalculation && !(inputPhase ops st inp).2.rAChanged
        && !(inputPhase ops st inp).2.rBChanged)) ∧
    ((inputPhase ops st inp).2.stepsInvoked =
      (!st.vertices_need_recalculation && !(inputPhase ops st inp).2.rAChanged
        && !(inputPhase ops st inp).2.rBChanged && !(inputPhase ops st inp).2.nChanged)) := by
  refine ⟨rfl, rfl, rfl, ?_, ?_, ?_⟩ <;>
    simp only [inputPhase, Bool.not_or, Bool.and_assoc]

/-! ## C6: what the renderer feeds to the draw callback -/

theorem rotateTranslate_eq (c m p : ℚ × ℚ) :
    rotateTranslate c m p = translate c (rotate m p) := rfl

theorem quadrantLoop_range' (xf : ℚ × ℚ → ℚ × ℚ) (vb : List (ℚ × ℚ))
    (k a : ℕ) (ha : 1 ≤ a) (hlen : a + k ≤ vb.length) :
    quadrantLoop xf vb (xf (vb.getD (a - 1) (0, 0))) (List.range' a k) =
      some ((List.range' a k).map fun i =>
        (xf (vb.getD (i - 1) (0, 0)), xf (vb.getD i (0, 0)))) := by
  induction k generalizing a with
  | zero => simp [quadrantLoop]
  | succ k ih =>
    have halt : a < vb.length := by omega
    have hd : vb.getD a (0, 0) = vb[a] := by
      rw [List.getD_eq_getElem?_getD, List.getElem?_eq_getElem halt]
      rfl
    have ih' := ih (a + 1) (by omega) (by omega)
    rw [Nat.add_sub_cancel] at ih'
    rw [List.range'_succ, quadrantLoop, List.getElem?_eq_getElem halt]
    simp only [← hd, List.map_cons, ih', Nat.add_sub_cancel]

theorem quadrantSegs_eq (c : ℚ × ℚ) (steps : ℕ) (vb : List (ℚ × ℚ))
    (h : steps < vb.length) (sq m : ℚ × ℚ) :
    quadrantSegs c steps vb sq m =
      some ((List.range' 1 steps).map fun i =>
        (rotateTranslate c m (applySigns sq (vb.getD (i - 1) (0, 0))),
         rotateTranslate c m (applySigns sq (vb.getD i (0, 0))))) := by
  have h0 : 0 < vb.length := by omega
  have hd : vb.getD 0 (0, 0) = vb[0] := by
    rw [List.getD_eq_getElem?_getD, List.getElem?_eq_getElem h0]
    rfl
  have hl := quadrantLoop_range' (fun v => rotateTranslate c m (applySigns sq v)) vb
    steps 1 (le_refl 1) (by omega)
  rw [show (1 : ℕ) - 1 = 0 from rfl] at hl
  unfold quadrantSegs
  rw [List.getElem?_eq_getElem h0, ← hd]
  exact hl

theorem render_quadrants_eq (c m : ℚ × ℚ) (steps : ℕ) (vb : List (ℚ × ℚ))
    (h : steps < vb.length) :
    render_quadrants c steps vb quadrants m =
      some (quadrants.flatMap fun sq =>
        (List.range' 1 steps).map fun i =>
          (rotateTranslate c m (applySigns sq (vb.getD (i - 1) (0, 0))),
           rotateTranslate c m (applySigns sq (vb.getD i (0, 0))))) := by
  simp [render_quadrants, quadrants, quadrantSegs_eq c steps vb h,
    List.flatMap_cons, List.flatMap_nil]

/-- C6: with the buffer invariant `len = steps + 1`, the renderer succeeds
and hands the draw callback, for each of the 4 sign-table entries and each of
the `steps` consecutive index pairs `(i - 1, i)` starting from index `0`,
both points sign-mirrored, then rotated by
`(x, y) ↦ (cos θ * x - sin θ * y, sin θ * x + cos θ * y)`, then translated by
the centre — `4 * steps` draw invocations in all. -/
theorem render_quadrants_spec (c m : ℚ × ℚ) (steps : ℕ) (vb : List (ℚ × ℚ))
    (h : vb.length = steps + 1) :
    render_quadrants c steps vb quadrants m =
      some (quadrants.flatMap fun sq =>
        (List.range' 1 steps).map fun i =>
          (translate c (rotate m (applySigns sq (vb.getD (i - 1) (0, 0)))),
           translate c (rotate m (applySigns sq (vb.getD i (0, 0)))))) ∧
    (quadrants.flatMap fun sq =>
      (List.range' 1 steps).map fun i =>
        (translate c (rotate m (applySigns sq (vb.getD (i - 1) (0, 0)))),
         translate c (rotate m (applySigns sq (vb.getD i (0, 0)))))).length = 4 * steps := by
  constructor
  · rw [render_quadrants_eq c m steps vb (by omega)]
    rfl
  · simp [quadrants, List.flatMap_cons, List.flatMap_nil]
    ring

/-- Witness for C6 on a two-point buffer with one step. -/
theorem render_quadrants_spec_witness :
    ([((1 : ℚ), (2 : ℚ)), (3, 4)].length = 1 + 1) ∧
    (render_quadrants (5, 6) 1 [((1 : ℚ), (2 : ℚ)), (3, 4)] quadrants (0, 1)).isSome = true :=
  ⟨rfl, by
    rw [(render_quadrants_spec (5, 6) (0, 1) 1 [((1 : ℚ), (2 : ℚ)), (3, 4)] rfl).1]
    rfl⟩

/-! ## C9: the renderer never indexes out of bounds -/

theorem slider_update_fields (s : Slider) (inp : FrameInput) :
    ((s.update inp).1).label = s.label ∧ ((s.update inp).1).min = s.min ∧
    ((s.update inp).1).max = s.max ∧ ((s.update inp).1).rect = s.rect := by
  unfold Slider.update
  split <;> exact ⟨rfl, rfl, rfl, rfl⟩

theorem slider_update_value_mem (s : Slider) (inp : FrameInput)
    (hmm : s.min ≤ s.max) (hv : s.min ≤ s.value ∧ s.value ≤ s.max) :
    s.min ≤ ((s.update inp).1).value ∧ ((s.update inp).1).value ≤ s.max := by
  unfold Slider.update
  split
  · dsimp only
    constructor <;>
      nlinarith [rustClamp_nonneg (x := (inp.mouseX - s.rect.x) / s.rect.w),
        rustClamp_le_one (x := (inp.mouseX - s.rect.x) / s.rect.w)]
  · exact hv

theorem ratToUsize_pos {q : ℚ} (h : 1 ≤ q) : 1 ≤ ratToUsize q := by
  unfold ratToUsize
  have h1 : (1 : ℤ) ≤ ⌊q⌋ := Int.le_floor.mpr (by push_cast; exact h)
  omega

theorem inputPhase_vertex_buffer (ops : TrigOps) (st : AppState) (inp : FrameInput) :
    ((inputPhase ops st inp).1).vertex_buffer = st.vertex_buffer := rfl

theorem inputPhase_steps (ops : TrigOps) (st : AppState) (inp : FrameInput) :
    ((inputPhase ops st inp).1).steps = st.steps := rfl

theorem ite_pair_fst (c : Prop) [Decidable c] (s : Slider) (p : Slider × Bool) :
    (if c then (s, false) else p).1 = s ∨ (if c then (s, false) else p).1 = p.1 := by
  split
  · exact Or.inl rfl
  · exact Or.inr rfl

theorem inputPhase_steps_slider (ops : TrigOps) (st : AppState) (inp : FrameInput) :
    ((inputPhase ops st inp).1).steps_slider = st.steps_slider ∨
    ((inputPhase ops st inp).1).steps_slider = (st.steps_slider.update inp).1 := by
  unfold inputPhase
  dsimp only
  exact ite_pair_fst _ _ _

theorem inputPhase_dirty_false (ops : TrigOps) (st : AppState) (inp : FrameInput)
    (h : (inputPhase ops st inp).1.vertices_need_recalculation = false) :
    st.vertices_need_recalculation = false := by
  rw [inputPhase_dirty] at h
  simp only [Bool.or_eq_false_iff] at h
  exact h.1.1.1.1

theorem frameStep_not_dirty (ops : TrigOps) (st : AppState) (inp : FrameInput) :
    (frameStep ops st inp).vertices_need_recalculation = false := by
  unfold frameStep regenPhase
  split
  · rfl
  · simpa using (by assumption : ¬ _ = true)

theorem stepsInv_frameStep (ops : TrigOps) (st : AppState) (inp : FrameInput)
    (h : StepsInv st) : StepsInv (frameStep ops st inp) := by
  obtain ⟨hmin, hmax, hv1, hv2, hlen⟩ := h
  have hfields : ((inputPhase ops st inp).1).steps_slider.min = 1 ∧
      ((inputPhase ops st inp).1).steps_slider.max = 50 ∧
      1 ≤ ((inputPhase ops st inp).1).steps_slider.value ∧
      ((inputPhase ops st inp).1).steps_slider.value ≤ 50 := by
    rcases inputPhase_steps_slider ops st inp with h1 | h1 <;> rw [h1]
    · exact ⟨hmin, hmax, hv1, hv2⟩
    · have hf := slider_update_fields st.steps_slider inp
      have hvv := slider_update_value_mem st.steps_slider inp
        (by rw [hmin, hmax]; norm_num) ⟨by rw [hmin]; exact hv1, by rw [hmax]; exact hv2⟩
      exact ⟨hf.2.1.trans hmin, hf.2.2.1.trans hmax,
        by rw [← hmin]; exact hvv.1, by rw [← hmax]; exact hvv.2⟩
  unfold frameStep regenPhase
  split
  · refine ⟨hfields.1, hfields.2.1, hfields.2.2.1, hfields.2.2.2, fun _ => ?_⟩
    dsimp only
    rw [generate_length ops _ _ _ _ (ratToUsize_pos hfields.2.2.1)]
  · refine ⟨hfields.1, hfields.2.1, hfields.2.2.1, hfields.2.2.2, fun hdf => ?_⟩
    rw [inputPhase_steps, inputPhase_vertex_buffer]
    exact hlen (inputPhase_dirty_false ops st inp hdf)

theorem stepsInv_runFrames (ops : TrigOps) (st : AppState) (inps : List FrameInput)
    (h : StepsInv st) : StepsInv (runFrames ops st inps) := by
  induction inps generalizing st with
  | nil => exact h
  | cons inp rest ih => exact ih _ (stepsInv_frameStep ops st inp h)

theorem stepsInv_init (screenW : ℚ) : StepsInv (initState screenW) := by
  refine ⟨rfl, rfl, by norm_num [initState, Slider.new],
    by norm_num [initState, Slider.new], fun h => ?_⟩
  simp [initState] at h

/-- C9: in every reachable frame, at the moment the loop calls
`render_quadrants` the cached `steps` and the buffer satisfy
`steps + 1 = vertex_buffer.len()`, so the renderer's accesses
`vertex_buffer[i]` for `0 ≤ i ≤ steps` are all in bounds and it never
panics (the model never returns `none`). -/
theorem render_in_bounds (ops : TrigOps) (screenW : ℚ)
    (inps : List FrameInput) (inp : FrameInput) :
    (frameStep ops (runFrames ops (initState screenW) inps) inp).steps + 1 =
      (frameStep ops (runFrames ops (initState screenW) inps) inp).vertex_buffer.length ∧
    ∀ c m : ℚ × ℚ,
      (render_quadrants c (frameStep ops (runFrames ops (initState screenW) inps) inp).steps
        (frameStep ops (runFrames ops (initState screenW) inps) inp).vertex_buffer
        quadrants m).isSome = true := by
  have hInv : StepsInv (frameStep ops (runFrames ops (initState screenW) inps) inp) :=
    stepsInv_frameStep ops _ inp (stepsInv_runFrames ops _ inps (stepsInv_init screenW))
  have hdirty := frameStep_not_dirty ops (runFrames ops (initState screenW) inps) inp
  have hlen := hInv.2.2.2.2 hdirty
  refine ⟨hlen, fun c m => ?_⟩
  rw [render_quadrants_eq c m _ _ (by omega)]
  rfl

/-! ## C4: does the buffer always match the current slider values? -/

theorem Rect.contains_eq (r : Rect) (px py : ℚ) :
    r.contains px py =
      decide (px ≥ r.x ∧ px < r.x + r.w ∧ py < r.y + r.h ∧ py ≥ r.y) := by
  unfold Rect.contains
  rw [Bool.decide_and, Bool.decide_and, Bool.decide_and]
  simp [Bool.and_assoc]

theorem rect_contains_of {r : Rect} {px py : ℚ}
    (h : px ≥ r.x ∧ px < r.x + r.w ∧ py < r.y + r.h ∧ py ≥ r.y) :
    r.contains px py = true := by
  rw [Rect.contains_eq]
  exact decide_eq_true h

theorem rect_not_contains_of {r : Rect} {px py : ℚ}
    (h : ¬(px ≥ r.x ∧ px < r.x + r.w ∧ py < r.y + r.h ∧ py ≥ r.y)) :
    r.contains px py = false := by
  rw [Rect.contains_eq]
  exact decide_eq_false h

theorem ratToUsize_25 : ratToUsize 25 = 25 := by
  unfold ratToUsize
  rw [show ⌊(25 : ℚ)⌋ = 25 from by norm_num]
  rfl


theorem c4_frame1 : c4S1 = c4T1 := by
  have hT : (initState 810).thickness_slider.update benignInput =
      ((initState 810).thickness_slider, false) :=
    slider_update_skip _ _ (Or.inl rfl)
  have hR : (initState 810).rotation_slider.update benignInput =
      ((initState 810).rotation_slider, false) :=
    slider_update_skip _ _ (Or.inl rfl)
  show frameStep dummyOps (initState 810) benignInput = c4T1
  unfold frameStep inputPhase regenPhase
  simp only [hT, hR]
  norm_num [initState, Slider.new, c4T1, benignInput, ratToUsize_25]

theorem c4_frame2 : c4S2 = c4T2 := by
  have hA : c4T1.r_a_slider.update c4DragInput =
      (⟨"Semi-major axis (r_a)", 410, 10, 810, ⟨20, 40, 200, 20⟩⟩, true) := by
    rw [slider_update_of_active _ _ rfl
      (rect_contains_of (by norm_num [c4T1, Slider.interactionArea, c4DragInput]))]
    have hE : rustClamp ((c4DragInput.mouseX - c4T1.r_a_slider.rect.x) /
        c4T1.r_a_slider.rect.w) 0 1 *
        (c4T1.r_a_slider.max - c4T1.r_a_slider.min) + c4T1.r_a_slider.min = 410 := by
      norm_num [c4T1, c4DragInput, rustClamp]
    rw [hE]
    simp only [Prod.mk.injEq]
    constructor
    · norm_num [c4T1]
    · refine decide_eq_true ?_
      rw [show (410 : ℚ) - c4T1.r_a_slider.value = 415 / 2 from by norm_num [c4T1],
        abs_of_nonneg (by norm_num : (0 : ℚ) ≤ 415 / 2)]
      norm_num [f32_epsilon]
  have hT : c4T1.thickness_slider.update c4DragInput = (c4T1.thickness_slider, false) :=
    slider_update_skip _ _ (Or.inr
      (rect_not_contains_of (by norm_num [c4T1, Slider.interactionArea, c4DragInput])))
  have hR : c4T1.rotation_slider.update c4DragInput = (c4T1.rotation_slider, false) :=
    slider_update_skip _ _ (Or.inr
      (rect_not_contains_of (by norm_num [c4T1, Slider.interactionArea, c4DragInput])))
  show frameStep dummyOps c4S1 c4DragInput = c4T2
  rw [c4_frame1]
  unfold frameStep inputPhase regenPhase
  simp only [hA, hT, hR]
  norm_num [c4T1, c4T2, c4DragInput, ratToUsize_25]

theorem c4_frame3 : c4S3 = c4T3 := by
  have hA : c4T2.r_a_slider.update c4EpsInput =
      (⟨"Semi-major axis (r_a)", 410 + 1 / 8388608, 10, 810, ⟨20, 40, 200, 20⟩⟩, false) := by
    rw [slider_update_of_active _ _ rfl
      (rect_contains_of (by norm_num [c4T2, Slider.interactionArea, c4EpsInput]))]
    have hE : rustClamp ((c4EpsInput.mouseX - c4T2.r_a_slider.rect.x) /
        c4T2.r_a_slider.rect.w) 0 1 *
        (c4T2.r_a_slider.max - c4T2.r_a_slider.min) + c4T2.r_a_slider.min =
        410 + 1 / 8388608 := by
      norm_num [c4T2, c4EpsInput, rustClamp]
    rw [hE]
    simp only [Prod.mk.injEq]
    constructor
    · norm_num [c4T2]
    · refine decide_eq_false ?_
      rw [not_lt, show (410 + 1 / 8388608 : ℚ) - c4T2.r_a_slider.value = 1 / 8388608 from by
        norm_num [c4T2], abs_of_nonneg (by norm_num : (0 : ℚ) ≤ 1 / 8388608)]
      norm_num [f32_epsilon]
  have hB : c4T2.r_b_slider.update c4EpsInput = (c4T2.r_b_slider, false) :=
    slider_update_skip _ _ (Or.inr
      (rect_not_contains_of (by norm_num [c4T2, Slider.interactionArea, c4EpsInput])))
  have hN : c4T2.n_slider.update c4EpsInput = (c4T2.n_slider, false) :=
    slider_update_skip _ _ (Or.inr
      (rect_not_contains_of (by norm_num [c4T2, Slider.interactionArea, c4EpsInput])))
  have hS : c4T2.steps_slider.update c4EpsInput = (c4T2.steps_slider, false) :=
    slider_update_skip _ _ (Or.inr
      (rect_not_contains_of (by norm_num [c4T2, Slider.interactionArea, c4EpsInput])))
  have hT : c4T2.thickness_slider.update c4EpsInput = (c4T2.thickness_slider, false) :=
    slider_update_skip _ _ (Or.inr
      (rect_not_contains_of (by norm_num [c4T2, Slider.interactionArea, c4EpsInput])))
  have hR : c4T2.rotation_slider.update c4EpsInput = (c4T2.rotation_slider, false) :=
    slider_update_skip _ _ (Or.inr
      (rect_not_contains_of (by norm_num [c4T2, Slider.interactionArea, c4EpsInput])))
  show frameStep dummyOps c4S2 c4EpsInput = c4T3
  rw [c4_frame2]
  unfold frameStep inputPhase regenPhase
  simp only [hA, hB, hN, hS, hT, hR]
  norm_num [c4T2, c4T3, c4EpsInput]

/-- Counterexample to C4: after the three-frame scenario starting at startup
(idle frame; drag the semi-major slider to `410`; nudge the pointer right by
`2 ^ (-25)` pixels), the semi-major slider's value is `410 + 2 ^ (-23)` but
the buffer still holds the curve generated for `410` — the buffer used for
drawing does not match the frame's current slider values. -/
theorem buffer_stale_after_sub_epsilon_drag :
    c4S3.vertex_buffer ≠
      generate dummyOps c4S3.r_a_slider.value c4S3.r_b_slider.value
        c4S3.n_slider.value (ratToUsize c4S3.steps_slider.value) := by
  rw [c4_frame3]
  intro h
  have hh := congrArg (fun l : List (ℚ × ℚ) => l[0]?) h
  simp only [c4T3] at hh
  rw [generate_head, generate_head] at hh
  simp only [Option.some.injEq, Prod.mk.injEq] at hh
  norm_num at hh

/-- C4 amended: after the input phase and the conditional regeneration, the
buffer and the cached step count match the frame's current geometry slider
values, provided every geometry-slider update that returned `false` this
frame left its slider's value unchanged.  (The proviso is needed because an
update may move the value by up to `f32::EPSILON` and still return `false`,
as the counterexample shows.) -/
theorem buffer_matches_frame (ops : TrigOps) (st : AppState) (inp : FrameInput)
    (hpre : st.vertices_need_recalculation = false →
      st.vertex_buffer =
        generate ops st.r_a_slider.value st.r_b_slider.value st.n_slider.value
          (ratToUsize st.steps_slider.value) ∧
      st.steps = ratToUsize st.steps_slider.value)
    (hacc : ((inputPhase ops st inp).2.rAChanged = false →
        (inputPhase ops st inp).1.r_a_slider.value = st.r_a_slider.value) ∧
      ((inputPhase ops st inp).2.rBChanged = false →
        (inputPhase ops st inp).1.r_b_slider.value = st.r_b_slider.value) ∧
      ((inputPhase ops st inp).2.nChanged = false →
        (inputPhase ops st inp).1.n_slider.value = st.n_slider.value) ∧
      ((inputPhase ops st inp).2.stepsChanged = false →
        (inputPhase ops st inp).1.steps_slider.value = st.steps_slider.value)) :
    (frameStep ops st inp).vertex_buffer =
      generate ops (frameStep ops st inp).r_a_slider.value
        (frameStep ops st inp).r_b_slider.value
        (frameStep ops st inp).n_slider.value
        (ratToUsize (frameStep ops st inp).steps_slider.value) ∧
    (frameStep ops st inp).steps =
      ratToUsize (frameStep ops st inp).steps_slider.value := by
  unfold frameStep regenPhase
  split
  · exact ⟨rfl, rfl⟩
  · rename_i hnd
    have hd4 : (inputPhase ops st inp).1.vertices_need_recalculation = false := by
      simpa using hnd
    have hchain := (inputPhase_dirty ops st inp).symm.trans hd4
    simp only [Bool.or_eq_false_iff] at hchain
    obtain ⟨⟨⟨⟨hd0, hA⟩, hB⟩, hN⟩, hS⟩ := hchain
    have hbase := hpre hd0
    rw [inputPhase_vertex_buffer, inputPhase_steps, hacc.1 hA, hacc.2.1 hB,
      hacc.2.2.1 hN, hacc.2.2.2 hS]
    exact hbase

/-- Witness for the amended C4 at the first frame from startup with an idle
pointer: the regenerated buffer matches the slider values. -/
theorem buffer_matches_frame_witness :
    (frameStep dummyOps (initState 810) benignInput).vertex_buffer =
      generate dummyOps (frameStep dummyOps (initState 810) benignInput).r_a_slider.value
        (frameStep dummyOps (initState 810) benignInput).r_b_slider.value
        (frameStep dummyOps (initState 810) benignInput).n_slider.value
        (ratToUsize (frameStep dummyOps (initState 810) benignInput).steps_slider.value) ∧
    (frameStep dummyOps (initState 810) benignInput).steps =
      ratToUsize (frameStep dummyOps (initState 810) benignInput).steps_slider.value :=
  buffer_matches_frame dummyOps (initState 810) benignInput
    (fun h => by simp [initState] at h)
    ⟨fun _ => rfl, fun _ => rfl, fun _ => rfl, fun _ => rfl⟩

end Squircle
